import Mathlib

/-
  Verification of the platform introspection layer of `wir`
  (src/src/platform.c, src/src/utils.c), against its specification.

  The definitions below are a shallow embedding of the C source:
  kernel-provided data (the /proc/net tables, the per-process fd link
  targets, the per-process stat/status/cmdline/environ files) is passed
  in explicitly as values, and each C function becomes a Lean function
  over those values.  C `int` return codes become `Except`/`Option`
  results or explicit integers, machine integers become `Int`/`Nat`,
  and C strings become `String`/`List Char`.
-/

namespace Wir

/-- The NUL character, used as separator in /proc files. -/
def nul_char : Char := Char.ofNat 0

/- ----------------------------------------------------------------
   Data model (src/src/platform.h)
   ---------------------------------------------------------------- -/

/-- `connection_info_t` from platform.h: one parsed connection record. -/
structure connection_info_t where
  local_addr : String
  local_port : Int
  remote_addr : String
  remote_port : Int
  state : String
  pid : Int
  protocol : String
deriving DecidableEq

/-- `process_info_t` from platform.h: one process snapshot. -/
structure process_info_t where
  pid : Int
  ppid : Int
  name : String
  cmdline : List Char
  username : String
  state : Char
  vsz : Nat
  rss : Nat
  uid : Int
  start_time : Int
deriving DecidableEq

/- ----------------------------------------------------------------
   Port connection resolver (Linux), platform.c lines 96-277.
   ---------------------------------------------------------------- -/

/-- The seven fields sscanf extracts from one well-formed line of
/proc/net/tcp or /proc/net/tcp6 (platform.c line 123):
local address/port, remote address/port, state code, uid, inode.
A line for which `matched < 7` is represented as `none` below. -/
structure RawLine where
  local_addr : Nat
  local_port : Int
  remote_addr : Nat
  remote_port : Int
  st : Nat
  uid : Int
  inode : Int
deriving DecidableEq

/-- Hex address rendered as dotted decimal, byte order as in
platform.c lines 146-151: lowest byte first. -/
def addr_to_string (a : Nat) : String :=
  toString (a % 256) ++ "." ++ toString ((a / 256) % 256) ++ "."
    ++ toString ((a / 65536) % 256) ++ "." ++ toString ((a / 16777216) % 256)

/-- Connection-state decode table, platform.c lines 164-177. -/
def tcp_state_string (st : Nat) : String :=
  match st with
  | 1 => "ESTABLISHED"
  | 2 => "SYN_SENT"
  | 3 => "SYN_RECV"
  | 4 => "FIN_WAIT1"
  | 5 => "FIN_WAIT2"
  | 6 => "TIME_WAIT"
  | 7 => "CLOSE"
  | 8 => "CLOSE_WAIT"
  | 9 => "LAST_ACK"
  | 10 => "LISTEN"
  | 11 => "CLOSING"
  | _ => "UNKNOWN"

/-- The expected symlink target "socket:[inode]" (platform.c line 210). -/
def socket_link (inode : Int) : String :=
  "socket:[" ++ toString inode ++ "]"

/-- The nested search of platform.c lines 183-222: walk the numeric
entries of /proc in directory order; for the first process owning a
descriptor whose link target equals "socket:[inode]", return its pid
(the `goto found_pid`); otherwise return the sentinel -1.  A process is
given as its pid together with the readable link targets of its open
descriptors (non-numeric /proc entries and unreadable fd directories
are skipped by the C loop and therefore not represented). -/
def find_pid_by_inode (procs : List (Int × List String)) (inode : Int) : Int :=
  match procs with
  | [] => -1
  | (pid, fds) :: rest =>
    if socket_link inode ∈ fds then pid
    else find_pid_by_inode rest inode

/-- Builds the record for one matching line, platform.c lines 142-222:
addresses rendered dotted-decimal, state decoded, protocol from the
filename (strstr(filename, "tcp6")), pid from the descriptor search. -/
def record_of_line (procs : List (Int × List String)) (tcp6 : Bool)
    (rl : RawLine) : connection_info_t :=
  { local_addr := addr_to_string rl.local_addr
    local_port := rl.local_port
    remote_addr := addr_to_string rl.remote_addr
    remote_port := rl.remote_port
    state := tcp_state_string rl.st
    protocol := if tcp6 then "TCP6" else "TCP"
    pid := find_pid_by_inode procs rl.inode }

/-- The line loop of parse_proc_net, platform.c lines 115-225: a line
that fails to parse (`matched < 7`) is skipped, a line whose local port
differs from the target is skipped, every other line appends one
record (the dynamic-array growth of lines 137-140 never drops one). -/
def parse_proc_net_body (procs : List (Int × List String)) (tcp6 : Bool)
    (target_port : Int) : List (Option RawLine) → List connection_info_t
  | [] => []
  | none :: rest => parse_proc_net_body procs tcp6 target_port rest
  | some rl :: rest =>
    if rl.local_port = target_port then
      record_of_line procs tcp6 rl :: parse_proc_net_body procs tcp6 target_port rest
    else
      parse_proc_net_body procs tcp6 target_port rest

/-- Same loop instrumented with the number of full scans of every
process's descriptor directory it performs: the block at platform.c
lines 181-222 (opendir("/proc") and the walk over all processes' fd
entries) runs once for every matching line, inside the loop body.
Returns the records together with that scan count. -/
def parse_proc_net_body_scans (procs : List (Int × List String)) (tcp6 : Bool)
    (target_port : Int) : List (Option RawLine) → List connection_info_t × Nat
  | [] => ([], 0)
  | none :: rest => parse_proc_net_body_scans procs tcp6 target_port rest
  | some rl :: rest =>
    let p := parse_proc_net_body_scans procs tcp6 target_port rest
    if rl.local_port = target_port then
      (record_of_line procs tcp6 rl :: p.1, 1 + p.2)
    else p

/-- Number of body lines that parse and match the target port. -/
def matching_line_count (target_port : Int) : List (Option RawLine) → Nat
  | [] => 0
  | none :: rest => matching_line_count target_port rest
  | some rl :: rest =>
    if rl.local_port = target_port then 1 + matching_line_count target_port rest
    else matching_line_count target_port rest

/-- parse_proc_net, platform.c lines 96-229.  The file content is
`none` when fopen fails (return -1, modelled as `Except.error`);
otherwise the first line (the header) is skipped - if there is no
line at all the function returns 0 with an empty result. -/
def parse_proc_net (procs : List (Int × List String)) (tcp6 : Bool)
    (target_port : Int) (file : Option (List (Option RawLine))) :
    Except Unit (List connection_info_t) :=
  match file with
  | none => Except.error ()
  | some [] => Except.ok []
  | some (_header :: rest) => Except.ok (parse_proc_net_body procs tcp6 target_port rest)

/-- The kernel-provided inputs of the Linux resolver: the two
connection-table files (none = cannot be opened) and the /proc
process entries with their descriptor link targets. -/
structure LinuxFs where
  tcp : Option (List (Option RawLine))
  tcp6 : Option (List (Option RawLine))
  procs : List (Int × List String)

/-- The `if (parse_proc_net(...) == 0)` guards of platform.c lines
256 and 266: a table whose parse fails (its file cannot be opened)
contributes no records and the failure is otherwise ignored. -/
def parse_or_empty (procs : List (Int × List String)) (tcp6 : Bool)
    (target_port : Int) (file : Option (List (Option RawLine))) :
    List connection_info_t :=
  match parse_proc_net procs tcp6 target_port file with
  | Except.ok rs => rs
  | Except.error _ => []

/-- platform_get_port_connections (Linux), platform.c lines 249-277:
parse /proc/net/tcp, then /proc/net/tcp6; a table whose parse fails
(the file cannot be opened) is silently skipped; the results are
concatenated, IPv4 first; the return code is always 0. -/
def platform_get_port_connections (fs : LinuxFs) (port : Int) :
    Int × List connection_info_t :=
  (0, parse_or_empty fs.procs false port fs.tcp
        ++ parse_or_empty fs.procs true port fs.tcp6)

/-- One line-to-record step as an Option-valued function; used to state
that the loop is an order-preserving filterMap over the body lines. -/
def line_record (procs : List (Int × List String)) (tcp6 : Bool) (port : Int)
    (ol : Option RawLine) : Option connection_info_t :=
  ol.bind fun rl =>
    if rl.local_port = port then some (record_of_line procs tcp6 rl) else none

/-- Body lines of a table file: empty if the file cannot be opened or
has no lines, otherwise everything after the header line. -/
def table_lines (file : Option (List (Option RawLine))) : List (Option RawLine) :=
  match file with
  | none => []
  | some [] => []
  | some (_header :: rest) => rest

/- ----------------------------------------------------------------
   Process info provider (Linux), platform.c lines 303-399.
   ---------------------------------------------------------------- -/

/-- The four fields fscanf extracts from /proc/pid/stat
(platform.c lines 319-321): name, state character, ppid, and the
tick-based start time (field 22). -/
structure ParsedStat where
  name : String
  state : Char
  ppid : Int
  starttime_ticks : Nat
deriving DecidableEq

/-- The fields scanned out of /proc/pid/status (platform.c lines
357-369); each is `none` when no line with its label parses, in which
case the corresponding info field keeps its memset value 0. -/
structure StatusFields where
  uid : Option Int
  vmsize : Option Nat
  vmrss : Option Nat
deriving DecidableEq

/-- The kernel-provided inputs of platform_get_process_info for one
pid.  `stat` is `none` when /proc/pid/stat cannot be opened and
`some none` when it opens but fscanf does not match 4 fields.
`btime` is the btime line of /proc/stat if found, `ticks_per_sec` is
sysconf(_SC_CLK_TCK), `status` and `cmdline` are `none` when the
respective file cannot be opened, and `pw` is the getpwuid database
(none = no entry, so the numeric uid is used as the username). -/
structure ProcFs where
  stat : Option (Option ParsedStat)
  btime : Option Int
  ticks_per_sec : Int
  status : Option StatusFields
  cmdline : Option (List Char)
  pw : Int → Option String

/-- get_username_from_uid, platform.c lines 61-68. -/
def get_username_from_uid (pw : Int → Option String) (uid : Int) : String :=
  match pw uid with
  | some nm => nm
  | none => toString uid

/-- The cmdline post-processing of platform.c lines 380-395: NUL bytes
become spaces, then trailing spaces are trimmed. -/
def cmdline_clean (raw : List Char) : List Char :=
  let replaced := raw.map fun c => if c = nul_char then ' ' else c
  (replaced.reverse.dropWhile fun c => c = ' ').reverse

/-- platform_get_process_info (Linux), platform.c lines 303-399:
returns -1 (modelled `none`) exactly when /proc/pid/stat cannot be
opened or does not parse; a missing btime or non-positive tick rate
leaves start_time at 0 (lines 344-350); a missing or partial status
file leaves uid/vsz/rss at their memset value 0 (lines 352-369); a
missing cmdline file leaves cmdline empty (lines 374-396). -/
def platform_get_process_info (fs : ProcFs) (pid : Int) : Option process_info_t :=
  match fs.stat with
  | none => none
  | some none => none
  | some (some st) =>
    let boot_time : Int := match fs.btime with
      | some b => b
      | none => 0
    let start_time : Int :=
      if fs.ticks_per_sec > 0 ∧ boot_time > 0 then
        boot_time + Int.ofNat (st.starttime_ticks / fs.ticks_per_sec.toNat)
      else 0
    let uid : Int := match fs.status with
      | some s => s.uid.getD 0
      | none => 0
    let vsz : Nat := match fs.status with
      | some s => s.vmsize.getD 0
      | none => 0
    let rss : Nat := match fs.status with
      | some s => s.vmrss.getD 0
      | none => 0
    some { pid := pid
           ppid := st.ppid
           name := st.name
           state := st.state
           start_time := start_time
           uid := uid
           vsz := vsz
           rss := rss
           username := get_username_from_uid fs.pw uid
           cmdline := match fs.cmdline with
             | some raw => cmdline_clean raw
             | none => [] }

/- ----------------------------------------------------------------
   Ancestry walker, platform.c lines 766-784.
   ---------------------------------------------------------------- -/

/-- The parent chain built by platform_get_process_tree, platform.c
lines 766-784.  The C function recurses on node->info.ppid whenever
`ppid > 0 && ppid != pid` and a lookup of the parent succeeds; it has
no other stopping condition (no visited set).  The C recursion carries
no fuel; `fuel` here is an explicit recursion budget so the walk is a
total function: a run that returns a chain of length `fuel` for every
`fuel` is a run of the C code that never terminates.  The environment
maps a pid to its snapshot (`none` = platform_get_process_info fails,
which ends the chain). -/
def ancestry_chain (env : Int → Option process_info_t) :
    Nat → Int → List process_info_t
  | 0, _ => []
  | fuel + 1, pid =>
    match env pid with
    | none => []
    | some info =>
      if info.ppid > 0 ∧ info.ppid ≠ pid then
        info :: ancestry_chain env fuel info.ppid
      else [info]

/- ----------------------------------------------------------------
   Environment reader (Linux), platform.c lines 420-464.
   ---------------------------------------------------------------- -/

/-- The counting loop of platform.c lines 440-445 over the buffer with
the appended terminating NUL: a position counts when it holds NUL, is
not position 0, and the previous byte is not NUL.  `prev` carries the
previous byte; the initial call passes NUL so that position 0 never
counts, exactly like the `i > 0` guard. -/
def env_count_aux : List Char → Char → Nat
  | [], _ => 0
  | c :: rest, prev =>
    (if c = nul_char ∧ prev ≠ nul_char then 1 else 0) + env_count_aux rest c

/-- The splitting loop of platform.c lines 451-460 over the buffer with
the appended terminating NUL: at every NUL the chunk accumulated since
the previous NUL is emitted if it is non-empty (`if (*start)`), and
the chunk start moves past the NUL.  `acc` holds the current chunk in
reverse. -/
def env_split_aux : List Char → List Char → List (List Char)
  | [], _acc => []
  | c :: rest, acc =>
    if c = nul_char then
      if acc = [] then env_split_aux rest []
      else acc.reverse :: env_split_aux rest []
    else env_split_aux rest (c :: acc)

/-- The entry list built by platform_get_process_env (Linux) from the
content of /proc/pid/environ: the file bytes with one NUL appended
(buffer[n] = 0 at platform.c line 436), split as above. -/
def linux_env_entries (content : List Char) : List (List Char) :=
  env_split_aux (content ++ [nul_char]) []

/-- The count written to *count by platform_get_process_env (Linux). -/
def linux_env_count (content : List Char) : Nat :=
  env_count_aux (content ++ [nul_char]) nul_char

/-- platform_get_process_env (Linux), platform.c lines 420-464:
-1 (modelled `Except.error`) exactly when /proc/pid/environ cannot be
opened; otherwise the NUL-split entries together with the separately
computed count. -/
def platform_get_process_env (file : Option (List Char)) :
    Except Unit (List (List Char) × Nat) :=
  match file with
  | none => Except.error ()
  | some content => Except.ok (linux_env_entries content, linux_env_count content)

/-- The key of a KEY=VALUE entry: everything before the first '='. -/
def env_key (e : List Char) : List Char :=
  e.takeWhile fun c => c != '='

/- ----------------------------------------------------------------
   Environment reader (macOS), platform.c lines 666-753.
   ---------------------------------------------------------------- -/

/-- One `ptr += strlen(ptr) + 1` step: the NUL-terminated string at the
front of the buffer, and the bytes after its terminator. -/
def read_cstring : List Char → List Char × List Char
  | [] => ([], [])
  | c :: rest =>
    if c = nul_char then ([], rest)
    else
      let p := read_cstring rest
      (c :: p.1, p.2)

/-- The argument-skipping loop of platform.c line 711: skip `argc`
NUL-terminated strings, stopping early at the end of the buffer. -/
def skip_strings : Nat → List Char → List Char
  | 0, l => l
  | _ + 1, [] => []
  | n + 1, c :: rest => skip_strings n (read_cstring (c :: rest)).2

/-- The environment-collection loop of platform.c lines 717-749: stop
at the end of the buffer or at an empty string; keep a string exactly
when it contains '=' (strchr); the copy loop at lines 736-746 copies
the same strings the counting loop at lines 718-729 counted.  Every
iteration consumes at least one byte, so the loop is run with an
explicit recursion budget of at least the buffer length (the budget
never runs out; `darwin_env_loop` below passes the buffer length). -/
def darwin_env_loop_fuel : Nat → List Char → List (List Char)
  | 0, _ => []
  | _ + 1, [] => []
  | f + 1, c :: rest =>
    if c = nul_char then []
    else
      let s := c :: (read_cstring rest).1
      if '=' ∈ s then s :: darwin_env_loop_fuel f (read_cstring rest).2
      else darwin_env_loop_fuel f (read_cstring rest).2

/-- The environment-collection loop at its actual starting buffer. -/
def darwin_env_loop (l : List Char) : List (List Char) :=
  darwin_env_loop_fuel l.length l

/-- The KERN_PROCARGS2 buffer after its leading 4-byte argc field:
the argc value and the remaining bytes (executable path, padding,
arguments, environment strings). -/
structure ProcArgs2 where
  argc : Nat
  rest : List Char

/-- platform_get_process_env (macOS), platform.c lines 666-753, from
the point where the sysctl buffer has been read: skip the executable
path (line 703), skip the NUL padding after it (lines 706-708), skip
argc argument strings (lines 711-713), then collect the environment
entries. -/
def darwin_env_entries (pa : ProcArgs2) : List (List Char) :=
  let after_path := (read_cstring pa.rest).2
  let after_pad := after_path.dropWhile fun c => c = nul_char
  let env_start := skip_strings pa.argc after_pad
  darwin_env_loop env_start

/- ----------------------------------------------------------------
   Allocation wrappers, utils.c lines 127-173.
   ---------------------------------------------------------------- -/

/-- The two possible outcomes of safe_malloc: a pointer, or the DIE
macro (utils.h lines 44-47), which prints to stderr and calls
exit(EXIT_FAILURE) - a fatal process exit, not a return value. -/
inductive alloc_result
  | ptr
  | fatal_exit
deriving DecidableEq

/-- safe_malloc, utils.c lines 127-133: returns the pointer when the
underlying malloc succeeds and otherwise invokes DIE, terminating the
process.  safe_calloc, safe_realloc (with size > 0) and safe_strdup
(with non-NULL input) behave identically. -/
def safe_malloc (alloc_ok : Bool) : alloc_result :=
  if alloc_ok then alloc_result.ptr else alloc_result.fatal_exit

/- ----------------------------------------------------------------
   Concrete kernel snapshots used as test inputs.
   ---------------------------------------------------------------- -/

/-- A LISTEN line on port 8080 with inode 12345 (the scenario of the
spec, section 8); local address 0x0100007F is 127.0.0.1. -/
def sample_line : RawLine :=
  { local_addr := 16777343
    local_port := 8080
    remote_addr := 0
    remote_port := 0
    st := 10
    uid := 1000
    inode := 12345 }

/-- A snapshot where /proc/net/tcp holds a header and the sample line,
/proc/net/tcp6 holds only a header, and process 500 holds a descriptor
whose link target is socket:[12345]. -/
def sample_fs : LinuxFs :=
  { tcp := some [none, some sample_line]
    tcp6 := some [none]
    procs := [(500, ["socket:[12345]"])] }

/-- A snapshot where neither connection-table file can be opened. -/
def unavailable_fs : LinuxFs :=
  { tcp := none
    tcp6 := none
    procs := [] }

/-- Two well-formed lines both on port 8080, with inodes 111 and 222. -/
def c1_line1 : RawLine :=
  { local_addr := 0, local_port := 8080, remote_addr := 0, remote_port := 0,
    st := 10, uid := 0, inode := 111 }

/-- Second matching line, distinct inode. -/
def c1_line2 : RawLine :=
  { local_addr := 0, local_port := 8080, remote_addr := 0, remote_port := 0,
    st := 1, uid := 0, inode := 222 }

/-- A minimal process snapshot with the given pid and ppid. -/
def mk_info (pid ppid : Int) : process_info_t :=
  { pid := pid, ppid := ppid, name := "p", cmdline := [], username := "u",
    state := 'S', vsz := 0, rss := 0, uid := 0, start_time := 0 }

/-- A kernel snapshot presenting a parent cycle of length two: process
100 reports parent 200 and process 200 reports parent 100 (possible
under concurrent reparenting between the reads); no other process
exists, so the total process count is 2. -/
def cyclic_parent_env : Int → Option process_info_t := fun pid =>
  if pid = 100 then some (mk_info 100 200)
  else if pid = 200 then some (mk_info 200 100)
  else none

/-- Per-process files where /proc/pid/stat cannot be opened. -/
def no_stat_fs : ProcFs :=
  { stat := none, btime := none, ticks_per_sec := 100, status := none,
    cmdline := none, pw := fun _ => none }

/-- Per-process files where only /proc/pid/stat is available: the
status, cmdline and boot-time sources are all missing. -/
def stat_only_fs : ProcFs :=
  { stat := some (some { name := "bash", state := 'S', ppid := 1, starttime_ticks := 5 })
    btime := none
    ticks_per_sec := 100
    status := none
    cmdline := none
    pw := fun _ => none }

/- ----------------------------------------------------------------
   Helper lemmas.
   ---------------------------------------------------------------- -/

theorem parse_or_empty_eq (procs : List (Int × List String)) (tcp6 : Bool)
    (port : Int) (file : Option (List (Option RawLine))) :
    parse_or_empty procs tcp6 port file
      = parse_proc_net_body procs tcp6 port (table_lines file) := by
  cases file with
  | none => rfl
  | some l => cases l with
    | nil => rfl
    | cons h rest => rfl

theorem resolve_snd_eq (fs : LinuxFs) (port : Int) :
    (platform_get_port_connections fs port).2
      = parse_proc_net_body fs.procs false port (table_lines fs.tcp)
        ++ parse_proc_net_body fs.procs true port (table_lines fs.tcp6) := by
  rw [platform_get_port_connections, parse_or_empty_eq, parse_or_empty_eq]

theorem parse_body_mem_port (procs : List (Int × List String)) (tcp6 : Bool)
    (port : Int) (lines : List (Option RawLine)) (r : connection_info_t)
    (h : r ∈ parse_proc_net_body procs tcp6 port lines) : r.local_port = port := by
  induction lines with
  | nil => simp [parse_proc_net_body] at h
  | cons ol rest ih =>
    cases ol with
    | none => exact ih (by simpa [parse_proc_net_body] using h)
    | some rl =>
      by_cases hp : rl.local_port = port
      · rw [parse_proc_net_body, if_pos hp] at h
        rcases List.mem_cons.mp h with h1 | h2
        · subst h1; simpa [record_of_line] using hp
        · exact ih h2
      · rw [parse_proc_net_body, if_neg hp] at h
        exact ih h

theorem parse_body_eq_filterMap (procs : List (Int × List String)) (tcp6 : Bool)
    (port : Int) (lines : List (Option RawLine)) :
    parse_proc_net_body procs tcp6 port lines
      = lines.filterMap (line_record procs tcp6 port) := by
  induction lines with
  | nil => simp [parse_proc_net_body]
  | cons ol rest ih =>
    cases ol with
    | none => simp [parse_proc_net_body, line_record, List.filterMap_cons, ih]
    | some rl =>
      by_cases hp : rl.local_port = port
      · simp [parse_proc_net_body, line_record, List.filterMap_cons, hp, ih]
      · simp [parse_proc_net_body, line_record, List.filterMap_cons, hp, ih]

theorem parse_body_length (procs : List (Int × List String)) (tcp6 : Bool)
    (port : Int) (lines : List (Option RawLine)) :
    (parse_proc_net_body procs tcp6 port lines).length
      = matching_line_count port lines := by
  induction lines with
  | nil => simp [parse_proc_net_body, matching_line_count]
  | cons ol rest ih =>
    cases ol with
    | none => simpa [parse_proc_net_body, matching_line_count] using ih
    | some rl =>
      by_cases hp : rl.local_port = port
      · simp [parse_proc_net_body, matching_line_count, hp, ih]
        omega
      · simp [parse_proc_net_body, matching_line_count, hp, ih]

theorem line_record_protocol (procs : List (Int × List String)) (tcp6 : Bool)
    (port : Int) (ol : Option RawLine) (r : connection_info_t)
    (h : line_record procs tcp6 port ol = some r) :
    r.protocol = if tcp6 then "TCP6" else "TCP" := by
  cases ol with
  | none => simp [line_record] at h
  | some rl =>
    rw [line_record, Option.some_bind] at h
    by_cases hp : rl.local_port = port
    · rw [if_pos hp] at h
      injection h with h
      subst h
      rfl
    · rw [if_neg hp] at h
      exact absurd h (by simp)

theorem env_count_eq_split (l : List Char) : ∀ (acc : List Char) (prev : Char),
    (prev = nul_char ↔ acc = []) →
    env_count_aux l prev = (env_split_aux l acc).length := by
  induction l with
  | nil => intro acc prev _; rfl
  | cons c rest ih =>
    intro acc prev hinv
    by_cases hc : c = nul_char
    · subst hc
      by_cases ha : acc = []
      · have hp : prev = nul_char := hinv.mpr ha
        simp only [env_count_aux, env_split_aux, ha, if_pos rfl, hp]
        simp only [ne_eq, not_true_eq_false, and_false, if_false, if_true]
        simpa using ih [] nul_char (by simp)
      · have hp : prev ≠ nul_char := fun h => ha (hinv.mp h)
        simp only [env_count_aux, env_split_aux, if_pos rfl, if_neg ha]
        simp only [ne_eq, hp, not_false_eq_true, and_true, if_true, List.length_cons]
        have := ih [] nul_char (by simp)
        omega
    · simp only [env_count_aux, env_split_aux, if_neg hc]
      simp only [hc, false_and, if_false, Nat.zero_add]
      exact ih (c :: acc) c (by simp [hc])

theorem env_split_nonempty (l : List Char) : ∀ (acc e : List Char),
    e ∈ env_split_aux l acc → e ≠ [] := by
  induction l with
  | nil => intro acc e he; simp [env_split_aux] at he
  | cons c rest ih =>
    intro acc e he
    by_cases hc : c = nul_char
    · subst hc
      by_cases ha : acc = []
      · rw [env_split_aux, if_pos rfl, if_pos ha] at he
        exact ih [] e he
      · rw [env_split_aux, if_pos rfl, if_neg ha] at he
        rcases List.mem_cons.mp he with h1 | h2
        · subst h1
          simpa using ha
        · exact ih [] e h2
    · rw [env_split_aux, if_neg hc] at he
      exact ih (c :: acc) e he

theorem key_nonempty_of_head_ne (e : List Char) (hne : e ≠ [])
    (hh : e.head? ≠ some '=') : env_key e ≠ [] := by
  cases e with
  | nil => exact absurd rfl hne
  | cons c t =>
    have hc : c ≠ '=' := by
      intro h
      exact hh (by simp [h])
    have hb : (c != '=') = true := bne_iff_ne.mpr hc
    simp [env_key, List.takeWhile_cons, hb]

theorem darwin_loop_mem (f : Nat) : ∀ (l e : List Char),
    e ∈ darwin_env_loop_fuel f l → e ≠ [] ∧ '=' ∈ e := by
  induction f with
  | zero => intro l e he; simp [darwin_env_loop_fuel] at he
  | succ n ih =>
    intro l e he
    cases l with
    | nil => simp [darwin_env_loop_fuel] at he
    | cons c rest =>
      by_cases hc : c = nul_char
      · rw [darwin_env_loop_fuel, if_pos hc] at he
        simp at he
      · rw [darwin_env_loop_fuel, if_neg hc] at he
        by_cases hm : '=' ∈ c :: (read_cstring rest).1
        · rw [if_pos hm] at he
          rcases List.mem_cons.mp he with h1 | h2
          · subst h1
            exact ⟨by simp, hm⟩
          · exact ih _ _ h2
        · rw [if_neg hm] at he
          exact ih _ _ he

/- ----------------------------------------------------------------
   Claim theorems.
   ---------------------------------------------------------------- -/

/-- C1: the owner search is NOT a one-pass index with O(1) lookups -
the block at platform.c lines 181-222 reopens /proc and rescans every
process's descriptor directory once per matching connection.  The
number of full descriptor scans performed by the line loop equals the
number of matching lines, and on a table with two matching lines the
loop performs two full scans, where a one-pass index would perform
exactly one. -/
theorem c1_rescan_per_matching_connection :
    (∀ (procs : List (Int × List String)) (tcp6 : Bool) (port : Int)
        (lines : List (Option RawLine)),
        (parse_proc_net_body_scans procs tcp6 port lines).2
          = matching_line_count port lines)
    ∧ (parse_proc_net_body_scans [] false 8080 [some c1_line1, some c1_line2]).2 = 2 := by
  constructor
  · intro procs tcp6 port lines
    induction lines with
    | nil => rfl
    | cons ol rest ih =>
      cases ol with
      | none => simpa [parse_proc_net_body_scans, matching_line_count] using ih
      | some rl =>
        by_cases hp : rl.local_port = port
        · simp [parse_proc_net_body_scans, matching_line_count, hp, ih]
        · simp [parse_proc_net_body_scans, matching_line_count, hp, ih]
  · rfl

/-- C2: the ancestry walk has no visited-set guard - its only stopping
conditions are a non-positive parent id, a self-referential parent id,
and a failed parent lookup (platform.c lines 775-780).  On a kernel
snapshot presenting a parent cycle of length two (total process count
2) the walk consumes every recursion budget in full, so it never
terminates, and already at budget 5 the chain repeats pids. -/
theorem c2_cycle_walk_unbounded :
    (∀ fuel : Nat,
        (ancestry_chain cyclic_parent_env fuel 100).length = fuel
        ∧ (ancestry_chain cyclic_parent_env fuel 200).length = fuel)
    ∧ (ancestry_chain cyclic_parent_env 5 100).map (fun i => i.pid)
        = [100, 200, 100, 200, 100] := by
  constructor
  · intro fuel
    induction fuel with
    | zero => exact ⟨rfl, rfl⟩
    | succ n ih =>
      refine ⟨?_, ?_⟩
      · have h : ancestry_chain cyclic_parent_env (n + 1) 100
            = mk_info 100 200 :: ancestry_chain cyclic_parent_env n 200 := rfl
        rw [h, List.length_cons, ih.2]
      · have h : ancestry_chain cyclic_parent_env (n + 1) 200
            = mk_info 200 100 :: ancestry_chain cyclic_parent_env n 100 := rfl
        rw [h, List.length_cons, ih.1]
  · rfl

/-- C3 counterexample: when neither /proc/net/tcp nor /proc/net/tcp6
can be opened - the kernel connection-table data source is unavailable
- platform_get_port_connections still returns the success code 0 with
an empty list, not an error, because the -1 of parse_proc_net is
swallowed at platform.c lines 256 and 266. -/
theorem c3_counterexample :
    platform_get_port_connections unavailable_fs 8080 = (0, [])
    ∧ unavailable_fs.tcp = none
    ∧ unavailable_fs.tcp6 = none := ⟨rfl, rfl, rfl⟩

/-- C3 amended: resolvePort returns an empty list, not an error, when
no connection matches, and in fact never returns an error: its return
code is always 0, and an unopenable table merely contributes no
records.  Only the lower-level table parser signals unavailability,
and it does so exactly when its file cannot be opened. -/
theorem c3_no_match_empty_never_error :
    (∀ (fs : LinuxFs) (port : Int), (platform_get_port_connections fs port).1 = 0)
    ∧ (∀ (fs : LinuxFs) (port : Int),
        matching_line_count port (table_lines fs.tcp) = 0 →
        matching_line_count port (table_lines fs.tcp6) = 0 →
        (platform_get_port_connections fs port).2 = [])
    ∧ (∀ (procs : List (Int × List String)) (tcp6 : Bool) (port : Int)
        (file : Option (List (Option RawLine))),
        parse_proc_net procs tcp6 port file = Except.error () ↔ file = none) := by
  refine ⟨fun _ _ => rfl, ?_, ?_⟩
  · intro fs port h4 h6
    rw [resolve_snd_eq]
    have l4 : (parse_proc_net_body fs.procs false port (table_lines fs.tcp)).length = 0 := by
      rw [parse_body_length]; exact h4
    have l6 : (parse_proc_net_body fs.procs true port (table_lines fs.tcp6)).length = 0 := by
      rw [parse_body_length]; exact h6
    rw [List.eq_nil_of_length_eq_zero l4, List.eq_nil_of_length_eq_zero l6]
    rfl
  · intro procs tcp6 port file
    cases file with
    | none => simp [parse_proc_net]
    | some l => cases l with
      | nil => simp [parse_proc_net]
      | cons h rest => simp [parse_proc_net]

/-- C3 witness: the amended statement at a concrete snapshot. -/
theorem c3_witness :
    (platform_get_port_connections sample_fs 9999).2 = [] :=
  c3_no_match_empty_never_error.2.1 sample_fs 9999 rfl rfl

/-- C4 counterexample: a memory-allocation failure inside the layer is
not reported as a typed return value - safe_malloc invokes DIE, which
exits the process (utils.c lines 127-133, utils.h lines 44-47). -/
theorem c4_counterexample : safe_malloc false = alloc_result.fatal_exit := rfl

/-- C4 amended: failures other than memory-allocation failure are
reported to the caller as typed return values - an unopenable
connection table is a typed parser error, a missing or unparsable
/proc/pid/stat is a typed NotFound, an unopenable environ file is a
typed error - while memory-allocation failure is the one exception:
safe_malloc returns only on success and otherwise the process exits
fatally. -/
theorem c4_typed_errors_except_alloc :
    (∀ (procs : List (Int × List String)) (tcp6 : Bool) (port : Int),
        parse_proc_net procs tcp6 port none = Except.error ())
    ∧ (∀ (fs : ProcFs) (pid : Int), fs.stat = none →
        platform_get_process_info fs pid = none)
    ∧ platform_get_process_env none = Except.error ()
    ∧ (∀ ok : Bool, safe_malloc ok = alloc_result.fatal_exit ↔ ok = false) := by
  refine ⟨fun _ _ _ => rfl, ?_, rfl, ?_⟩
  · intro fs pid h
    rw [platform_get_process_info, h]
  · intro ok
    cases ok <;> simp [safe_malloc]

/-- C4 witness: the amended statement at a concrete input. -/
theorem c4_witness : platform_get_process_info no_stat_fs 7 = none :=
  c4_typed_errors_except_alloc.2.1 no_stat_fs 7 rfl

/-- C5 counterexample: the Linux reader performs no '=' validation -
on a buffer whose single entry is "=v" it returns that entry, whose
key (the part before the first '=') is empty, and on a buffer whose
single entry is "X" it returns an entry lacking '=' entirely; the
macOS reader's strchr check also accepts the entry "=v", whose key is
empty. -/
theorem c5_counterexample :
    linux_env_entries ['=', 'v'] = [['=', 'v']]
    ∧ env_key ['=', 'v'] = []
    ∧ linux_env_entries ['X'] = [['X']]
    ∧ '=' ∉ (['X'] : List Char)
    ∧ darwin_env_entries ⟨0, ['p', nul_char, '=', 'v', nul_char]⟩ = [['=', 'v']] :=
  ⟨rfl, rfl, rfl, by decide, rfl⟩

/-- C5 amended: every returned entry is a non-empty string; the
readers do not validate where '=' falls, so an entry may begin with
'=' (empty key) and on Linux may lack '=' entirely, while on macOS
every returned entry does contain '='; on both platforms, whenever a
returned entry does not begin with '=', its key is non-empty. -/
theorem c5_entries_nonempty_key_guard :
    (∀ (content : List Char) (e : List Char), e ∈ linux_env_entries content →
        e ≠ [] ∧ (e.head? ≠ some '=' → env_key e ≠ []))
    ∧ (∀ (pa : ProcArgs2) (e : List Char), e ∈ darwin_env_entries pa →
        e ≠ [] ∧ '=' ∈ e ∧ (e.head? ≠ some '=' → env_key e ≠ [])) := by
  constructor
  · intro content e he
    have hne := env_split_nonempty _ _ _ he
    exact ⟨hne, fun hh => key_nonempty_of_head_ne e hne hh⟩
  · intro pa e he
    simp only [darwin_env_entries, darwin_env_loop] at he
    have hm := darwin_loop_mem _ _ _ he
    exact ⟨hm.1, hm.2, fun hh => key_nonempty_of_head_ne e hm.1 hh⟩

/-- C5 witness: the amended statement at a concrete entry. -/
theorem c5_witness : env_key ['A', '=', 'b'] ≠ [] :=
  (c5_entries_nonempty_key_guard.1 ['A', '=', 'b'] ['A', '=', 'b'] (by decide)).2 (by decide)

/-- C6: every record returned by the resolver for a port carries that
port as its local port - a line survives the filter at platform.c
line 132 only when its parsed local port equals the target, and the
record copies that field unchanged (line 160). -/
theorem c6_local_port_eq (fs : LinuxFs) (port : Int) (r : connection_info_t)
    (h : r ∈ (platform_get_port_connections fs port).2) : r.local_port = port := by
  rw [resolve_snd_eq] at h
  rcases List.mem_append.mp h with h4 | h6
  · exact parse_body_mem_port _ _ _ _ _ h4
  · exact parse_body_mem_port _ _ _ _ _ h6

/-- C6 witness: the spec scenario - a LISTEN line on port 8080. -/
theorem c6_witness :
    (record_of_line sample_fs.procs false sample_line).local_port = 8080 :=
  c6_local_port_eq sample_fs 8080 _ (by decide)

/-- C7: when a matching socket's inode appears in no process's
descriptor links, the search returns the sentinel -1 (platform.c line
182 initialises conn->pid = -1 and nothing overwrites it), the record
is still produced with that sentinel, and the number of records is
the number of matching lines whatever the descriptor tables hold -
resolution of the remaining connections is unaffected. -/
theorem c7_unknown_owner_sentinel :
    (∀ (procs : List (Int × List String)) (inode : Int),
        (∀ p ∈ procs, socket_link inode ∉ p.2) →
          find_pid_by_inode procs inode = -1)
    ∧ (∀ (procs : List (Int × List String)) (tcp6 : Bool) (port : Int)
        (lines : List (Option RawLine)),
        (parse_proc_net_body procs tcp6 port lines).length
          = matching_line_count port lines)
    ∧ (∀ (procs : List (Int × List String)) (tcp6 : Bool) (rl : RawLine),
        (∀ p ∈ procs, socket_link rl.inode ∉ p.2) →
          (record_of_line procs tcp6 rl).pid = -1) := by
  have hfind : ∀ (procs : List (Int × List String)) (inode : Int),
      (∀ p ∈ procs, socket_link inode ∉ p.2) →
        find_pid_by_inode procs inode = -1 := by
    intro procs inode h
    induction procs with
    | nil => rfl
    | cons pr rest ih =>
      rcases pr with ⟨pid, fds⟩
      rw [find_pid_by_inode, if_neg (h ⟨pid, fds⟩ (List.mem_cons_self _ _))]
      exact ih fun p hp => h p (List.mem_cons_of_mem _ hp)
  refine ⟨hfind, parse_body_length, ?_⟩
  intro procs tcp6 rl h
  exact hfind procs rl.inode h

/-- C7 witness: inode 12345 owned by no scanned process. -/
theorem c7_witness :
    find_pid_by_inode [((500 : Int), ["socket:[99]"])] 12345 = -1 :=
  c7_unknown_owner_sentinel.1 [(500, ["socket:[99]"])] 12345 (by decide)

/-- C8: the query fails (returns NotFound) exactly when /proc/pid/stat
cannot be opened or does not parse as the fixed format (platform.c
lines 311-325); when the stat line parses, missing secondary sources -
the status file, the boot-time line, the cmdline file - never fail the
query: the snapshot is returned with uid, memory sizes, start time at
zero and an empty command line. -/
theorem c8_notfound_iff_primary (fs : ProcFs) (pid : Int) :
    (platform_get_process_info fs pid = none
      ↔ fs.stat = none ∨ fs.stat = some none)
    ∧ (∀ st : ParsedStat, fs.stat = some (some st) → fs.status = none →
        fs.btime = none → fs.cmdline = none →
        platform_get_process_info fs pid
          = some { pid := pid, ppid := st.ppid, name := st.name, state := st.state,
                   start_time := 0, uid := 0, vsz := 0, rss := 0,
                   username := get_username_from_uid fs.pw 0, cmdline := [] }) := by
  constructor
  · rcases h : fs.stat with _ | o
    · simp [platform_get_process_info, h]
    · cases o with
      | none => simp [platform_get_process_info, h]
      | some st => simp [platform_get_process_info, h]
  · intro st hst hstatus hbt hcmd
    rw [platform_get_process_info, hst, hstatus, hbt, hcmd]
    simp

/-- C8 witness: only the stat file is available; the snapshot is still
returned, with the secondary fields at their defaults. -/
theorem c8_witness :
    platform_get_process_info stat_only_fs 42
      = some { pid := 42, ppid := 1, name := "bash", state := 'S',
               start_time := 0, uid := 0, vsz := 0, rss := 0,
               username := get_username_from_uid stat_only_fs.pw 0, cmdline := [] } :=
  (c8_notfound_iff_primary stat_only_fs 42).2 _ rfl rfl rfl rfl

/-- C9: the resolver's output is the IPv4 table's records followed by
the IPv6 table's records (platform.c lines 256-271 append tcp before
tcp6), each group an order-preserving filterMap of that table's body
lines, with every record of the first group tagged TCP and every
record of the second tagged TCP6. -/
theorem c9_ipv4_before_ipv6 (fs : LinuxFs) (port : Int) :
    (platform_get_port_connections fs port).2
      = (table_lines fs.tcp).filterMap (line_record fs.procs false port)
        ++ (table_lines fs.tcp6).filterMap (line_record fs.procs true port)
    ∧ (∀ r ∈ (table_lines fs.tcp).filterMap (line_record fs.procs false port),
        r.protocol = "TCP")
    ∧ (∀ r ∈ (table_lines fs.tcp6).filterMap (line_record fs.procs true port),
        r.protocol = "TCP6") := by
  refine ⟨?_, ?_, ?_⟩
  · rw [resolve_snd_eq, parse_body_eq_filterMap, parse_body_eq_filterMap]
  · intro r hr
    rcases List.mem_filterMap.mp hr with ⟨ol, _, hol⟩
    simpa using line_record_protocol _ _ _ _ _ hol
  · intro r hr
    rcases List.mem_filterMap.mp hr with ⟨ol, _, hol⟩
    simpa using line_record_protocol _ _ _ _ _ hol

/-- C9 witness: the IPv4 record of the sample snapshot is tagged TCP. -/
theorem c9_witness :
    (record_of_line sample_fs.procs false sample_line).protocol = "TCP" :=
  (c9_ipv4_before_ipv6 sample_fs 8080).2.1 _ (by decide)

/-- C10: the count the Linux environment reader reports equals the
number of entries it actually produces - the counting loop at
platform.c lines 440-445 and the splitting loop at lines 451-460
agree on every buffer - and every produced entry is a non-empty
string, so consecutive NUL separators and the empty trailing fragment
never yield an entry. -/
theorem c10_count_eq_entries (content : List Char) :
    linux_env_count content = (linux_env_entries content).length
    ∧ ∀ e ∈ linux_env_entries content, e ≠ [] := by
  constructor
  · exact env_count_eq_split (content ++ [nul_char]) [] nul_char (by simp)
  · intro e he
    exact env_split_nonempty _ _ _ he

/-- C10 witness: a two-entry buffer. -/
theorem c10_witness :
    linux_env_count ['a', nul_char, 'b'] = (linux_env_entries ['a', nul_char, 'b']).length
    ∧ (['a'] : List Char) ≠ [] :=
  ⟨(c10_count_eq_entries ['a', nul_char, 'b']).1,
   (c10_count_eq_entries ['a', nul_char, 'b']).2 ['a'] (by decide)⟩

end Wir
